import Mathlib

/-!
Verification of the token-based authentication and authorization subsystem
of the account-management application (`src/lib/jwt.ts`, the login route and
the auth middleware).

The TypeScript source is embedded shallowly:

* `jwtSign` / `jwtVerify` model the `jsonwebtoken@^9` library calls made by
  the source, following the library's documented semantics: HMAC signatures
  are idealised as the free constructor `Sig.mac` (two MACs are equal exactly
  when algorithm, secret and signed content are equal), and for a string
  secret with no `algorithms` option the verifier defaults to accepting
  HS256, HS384 and HS512.
* a wire token string is represented by `TokenStr`: its literal text together
  with the structured JWT that base64url/JSON decoding yields for it (`none`
  when the text is not a decodable JWT).  The code observes the raw text only
  through emptiness and length, so base64url itself is not re-implemented;
  `encodeToken` pairs a concrete rendering with its own decoding.
* the module-level constants `JWT_SECRET` and `VALIDATED_JWT_SECRET` of the
  source become `jwtSecretConst` and `validatedJwtSecret`, evaluated from an
  explicit environment; `moduleInit` models loading the module (it fails
  exactly when the source file would throw while evaluating its constants).
* `authMiddleware` and `requireRole` are embedded over an explicit request
  type; a handler returns an `Outcome` that is either a response or a thrown
  error (carrying its message), so that catching versus propagating is
  observable.
-/

deriving instance DecidableEq for Except

namespace JwtAuth

/-- Decoded JOSE header of a JWT: the declared signing algorithm. -/
structure JoseHeader where
  alg : String
  deriving DecidableEq, Repr

/-- Decoded JWT payload as the source reads it: the claim fields used by
`src/lib/jwt.ts` (`userId`, `email`, `role`, the refresh-token `type` tag,
and the registered claims `iat`, `exp`, `iss`, `aud`). -/
structure Payload where
  userId : Option String
  email : Option String
  role : Option String
  ttype : Option String
  iat : Option Int
  exp : Option Int
  iss : Option String
  aud : Option String
  deriving DecidableEq, Repr

/-- Idealised signature value of a token's third segment.  `mac` is the HMAC
of the header and payload under a secret and algorithm, treated as a free
constructor (EUF-CMA idealisation: MACs collide only on equal inputs);
`empty` is an absent signature (the `none` algorithm's shape); `raw` is any
other signature-shaped byte string. -/
inductive Sig where
  | mac (alg : String) (secret : String) (header : JoseHeader) (payload : Payload)
  | empty
  | raw (s : String)
  deriving DecidableEq, Repr

/-- A structured (decoded) JWT: header, payload and signature segment. -/
structure Token where
  header : JoseHeader
  payload : Payload
  sig : Sig
  deriving DecidableEq, Repr

/-- A wire-format token string: its literal text plus the structured JWT it
decodes to (`none` when the text is not a well-formed JWT).  The source only
inspects the text via emptiness and length before handing it to the library,
which decodes it. -/
structure TokenStr where
  text : String
  decoded : Option Token
  deriving DecidableEq, Repr

/-- Stand-in for the wire text of one payload field (the rendering is only
observed through its length). -/
def renderOptStr : Option String → String
  | none => "-"
  | some s => s

/-- Stand-in for the wire text of a numeric claim. -/
def renderOptInt : Option Int → String
  | none => "-"
  | some i => toString i

/-- Stand-in for the encoded header segment. -/
def renderHeader (h : JoseHeader) : String :=
  "alg=" ++ h.alg ++ ",typ=JWT"

/-- Stand-in for the encoded payload segment. -/
def renderPayload (p : Payload) : String :=
  renderOptStr p.userId ++ ";" ++ renderOptStr p.email ++ ";" ++
  renderOptStr p.role ++ ";" ++ renderOptStr p.ttype ++ ";" ++
  renderOptInt p.iat ++ ";" ++ renderOptInt p.exp ++ ";" ++
  renderOptStr p.iss ++ ";" ++ renderOptStr p.aud

/-- Stand-in for the encoded signature segment. -/
def renderSig : Sig → String
  | .mac alg _ _ _ => "mac-" ++ alg
  | .empty => ""
  | .raw s => s

/-- Stand-in for the three-segment wire text of a token. -/
def renderToken (t : Token) : String :=
  renderHeader t.header ++ "." ++ renderPayload t.payload ++ "." ++ renderSig t.sig

/-- Serialize a structured token to the wire: the rendering paired with its
own decoding (base64url/JSON decoding inverts encoding). -/
def encodeToken (t : Token) : TokenStr :=
  ⟨renderToken t, some t⟩

/-- JavaScript `String.prototype.startsWith`. -/
def strStartsWith (s pre : String) : Bool :=
  s.toList.take pre.toList.length == pre.toList

/-- JavaScript `String.prototype.includes`. -/
def strIncludes (hay sub : String) : Bool :=
  (List.range (hay.toList.length + 1)).any fun i =>
    (hay.toList.drop i).take sub.toList.length == sub.toList

/-- JavaScript string falsiness of an optional string claim: absent or `""`. -/
def falsyOptStr : Option String → Bool
  | none => true
  | some s => s = ""

/-! ## The jsonwebtoken library model -/

/-- Options the source passes to `jwt.sign`. -/
structure SignOpts where
  expiresInSec : Int
  algorithm : String
  issuer : Option String
  audience : Option String
  deriving DecidableEq, Repr

/-- Options the source passes to `jwt.verify`.  `algorithms := none` means
the option was not supplied, in which case the library defaults to the HMAC
family for a string secret. -/
structure VerifyOpts where
  algorithms : Option (List String)
  issuer : Option String
  audience : Option String
  clockTolerance : Int
  deriving DecidableEq, Repr

/-- Caller-supplied claims handed to `jwt.sign` (the library adds `iat`,
`exp`, `iss`, `aud` itself). -/
structure ClaimsIn where
  userId : Option String
  email : Option String
  role : Option String
  ttype : Option String
  deriving DecidableEq, Repr

/-- Model of `jwt.sign(payload, secret, opts)` at time `now` (seconds since epoch):
adds `iat = now` and `exp = now + expiresIn`, records issuer and audience,
and signs header plus payload with the declared algorithm. -/
def jwtSign (c : ClaimsIn) (secret : String) (opts : SignOpts) (now : Int) : Token :=
  let p : Payload :=
    { userId := c.userId, email := c.email, role := c.role, ttype := c.ttype,
      iat := some now, exp := some (now + opts.expiresInSec),
      iss := opts.issuer, aud := opts.audience }
  let h : JoseHeader := { alg := opts.algorithm }
  { header := h, payload := p, sig := .mac opts.algorithm secret h p }

/-- The errors `jwt.verify` can produce on the paths this source exercises.
All are `JsonWebTokenError`s except `expired`, which is `TokenExpiredError`. -/
inductive JwtError where
  | mustBeProvided
  | malformed
  | signatureRequired
  | invalidAlgorithm
  | invalidSignature
  | expired
  | audienceInvalid
  | issuerInvalid
  deriving DecidableEq, Repr

/-- The `error.name` of a jsonwebtoken error. -/
def JwtError.name : JwtError → String
  | .expired => "TokenExpiredError"
  | _ => "JsonWebTokenError"

/-- The `error.message` of a jsonwebtoken error. -/
def JwtError.message : JwtError → String
  | .mustBeProvided => "jwt must be provided"
  | .malformed => "jwt malformed"
  | .signatureRequired => "jwt signature is required"
  | .invalidAlgorithm => "invalid algorithm"
  | .invalidSignature => "invalid signature"
  | .expired => "jwt expired"
  | .audienceInvalid => "jwt audience invalid"
  | .issuerInvalid => "jwt issuer invalid"

/-- Algorithms jsonwebtoken@9 accepts by default for a string secret when the
`algorithms` option is not supplied. -/
def defaultStringSecretAlgs : List String :=
  ["HS256", "HS384", "HS512"]

/-- Audience check of `jwt.verify` (runs after the expiry check), followed by
the issuer check. -/
def checkIss (t : Token) (opts : VerifyOpts) : Except JwtError Payload :=
  match opts.issuer with
  | some i => if t.payload.iss ≠ some i then .error .issuerInvalid else .ok t.payload
  | none => .ok t.payload

/-- Audience check of `jwt.verify`, chained into the issuer check. -/
def checkAudIss (t : Token) (opts : VerifyOpts) : Except JwtError Payload :=
  match opts.audience with
  | some a => if t.payload.aud ≠ some a then .error .audienceInvalid else checkIss t opts
  | none => checkIss t opts

/-- Model of `jwt.verify(token, secret, opts)` at time `now`, in the library's check
order: non-empty text, decodable, signature present, declared algorithm in
the allowed list, signature equal to the MAC of header and payload under the
declared algorithm, then `exp` (expired when `now ≥ exp + clockTolerance`),
then audience and issuer. -/
def jwtVerify (tok : TokenStr) (secret : String) (opts : VerifyOpts) (now : Int) :
    Except JwtError Payload :=
  if tok.text = "" then .error .mustBeProvided
  else
    match tok.decoded with
    | none => .error .malformed
    | some t =>
      if t.sig = Sig.empty then .error .signatureRequired
      else
        if ¬ (opts.algorithms.getD defaultStringSecretAlgs).contains t.header.alg then
          .error .invalidAlgorithm
        else if t.sig ≠ Sig.mac t.header.alg secret t.header t.payload then
          .error .invalidSignature
        else
          match t.payload.exp with
          | some e =>
            if now ≥ e + opts.clockTolerance then .error .expired
            else checkAudIss t opts
          | none => checkAudIss t opts

/-! ## Module-level configuration (`src/lib/jwt.ts` top of file) -/

/-- Process configuration read by the module: `process.env.JWT_SECRET` and
`process.env.NODE_ENV`. -/
structure Env where
  jwtSecret : Option String
  nodeEnv : Option String
  deriving DecidableEq, Repr

/-- The hardcoded fallback secret of the source. -/
def fallbackSecret : String :=
  "super-secret-key-for-workshop-demo-only"

/-- The constant `JWT_SECRET = process.env.JWT_SECRET || "super-secret-..."`:
JavaScript `||` falls back when the variable is unset or empty. -/
def jwtSecretConst (env : Env) : String :=
  match env.jwtSecret with
  | some s => if s = "" then fallbackSecret else s
  | none => fallbackSecret

/-- Function `validateJWTSecret()`: throws when `process.env.JWT_SECRET` is unset or
empty, or shorter than 32 characters. -/
def validateJWTSecret (env : Env) : Except String String :=
  match env.jwtSecret with
  | some s =>
    if s = "" then .error "JWT_SECRET environment variable is required for security"
    else if s.length < 32 then
      .error "JWT_SECRET must be at least 32 characters long for security"
    else .ok s
  | none => .error "JWT_SECRET environment variable is required for security"

/-- The constant `VALIDATED_JWT_SECRET = NODE_ENV === 'test' ? JWT_SECRET :
validateJWTSecret()`. -/
def validatedJwtSecret (env : Env) : Except String String :=
  if env.nodeEnv = some "test" then .ok (jwtSecretConst env)
  else validateJWTSecret env

/-- The two module-level secret constants after the module has loaded. -/
structure ModuleState where
  secretConst : String
  validatedSecret : String
  deriving DecidableEq, Repr

/-- Loading `src/lib/jwt.ts`: evaluates both secret constants; fails exactly
when `VALIDATED_JWT_SECRET`'s initializer throws. -/
def moduleInit (env : Env) : Except String ModuleState :=
  match validatedJwtSecret env with
  | .error e => .error e
  | .ok v => .ok ⟨jwtSecretConst env, v⟩

/-! ## Token Service operations -/

/-- The `expiresIn: "24h"` of the legacy `generateToken`, in seconds. -/
def legacyExpiresInSec : Int := 86400

/-- The `expiresIn: "15m"` of `generateTokenSecure`, in seconds. -/
def secureExpiresInSec : Int := 900

/-- The `expiresIn: "7d"` of `generateRefreshToken`, in seconds. -/
def refreshExpiresInSec : Int := 604800

/-- Sign options of the legacy `generateToken`: 24h expiry, library-default
HS256, no issuer or audience. -/
def legacySignOpts : SignOpts :=
  ⟨legacyExpiresInSec, "HS256", none, none⟩

/-- Sign options of `generateTokenSecure`: 15m expiry, pinned HS256, issuer
and audience set. -/
def secureSignOpts : SignOpts :=
  ⟨secureExpiresInSec, "HS256", some "your-app-name", some "your-app-users"⟩

/-- Sign options of `generateRefreshToken`: 7d expiry, pinned HS256, issuer
and audience set. -/
def refreshSignOpts : SignOpts :=
  ⟨refreshExpiresInSec, "HS256", some "your-app-name", some "your-app-users"⟩

/-- Legacy `generateToken(payload)`: signs with the fallback-defaulted
`JWT_SECRET` constant and a 24-hour expiry. -/
def generateToken (payload : ClaimsIn) (st : ModuleState) (now : Int) : TokenStr :=
  encodeToken (jwtSign payload st.secretConst legacySignOpts now)

/-- Function `generateTokenSecure(payload)`: requires truthy `userId` and `email`
(the synchronous throw is wrapped by the function's outer catch), then signs
with the validated secret, 15-minute expiry, pinned algorithm, issuer and
audience. -/
def generateTokenSecure (userId email : String) (role : Option String)
    (st : ModuleState) (now : Int) : Except String TokenStr :=
  if userId = "" ∨ email = "" then
    .error "Token generation error: Invalid payload: userId and email are required"
  else
    .ok (encodeToken (jwtSign ⟨some userId, some email, role, none⟩
      st.validatedSecret secureSignOpts now))

/-- Function `generateRefreshToken(payload)`: requires a truthy `userId`, then signs
`\x7b userId, type: 'refresh' \x7d` with a 7-day expiry. -/
def generateRefreshToken (userId : String) (st : ModuleState) (now : Int) :
    Except String TokenStr :=
  if userId = "" then
    .error "Refresh token generation error: Invalid payload: userId is required for refresh token"
  else
    .ok (encodeToken (jwtSign ⟨some userId, none, none, some "refresh"⟩
      st.validatedSecret refreshSignOpts now))

/-- Verify options of the legacy `verifyToken`: nothing supplied, so the
library defaults apply (HMAC family, no issuer/audience check, no
clock-skew tolerance). -/
def legacyVerifyOpts : VerifyOpts :=
  ⟨none, none, none, 0⟩

/-- Verify options of `verifyTokenSecure`: algorithms pinned to HS256,
issuer and audience enforced, 30 seconds of clock tolerance. -/
def secureVerifyOpts : VerifyOpts :=
  ⟨some ["HS256"], some "your-app-name", some "your-app-users", 30⟩

/-- Legacy `verifyToken(token)`: bare `jwt.verify` with the
fallback-defaulted secret; library errors are rethrown unchanged. -/
def verifyToken (tok : TokenStr) (st : ModuleState) (now : Int) :
    Except JwtError Payload :=
  jwtVerify tok st.secretConst legacyVerifyOpts now

/-- Function `verifyTokenSecure(token)`: input prechecks (non-empty, length at least
10; their synchronous throws are wrapped by the outer catch), hardened
`jwt.verify`, library errors mapped to message strings by error name, then
the payload-schema check requiring truthy `userId` and `email`. -/
def verifyTokenSecure (tok : TokenStr) (st : ModuleState) (now : Int) :
    Except String Payload :=
  if tok.text = "" then
    .error "Token verification error: Invalid token: token must be a non-empty string"
  else if tok.text.length < 10 then
    .error "Token verification error: Invalid token: token too short"
  else
    match jwtVerify tok st.validatedSecret secureVerifyOpts now with
    | .error e =>
      if e.name = "TokenExpiredError" then .error "Token has expired"
      else if e.name = "JsonWebTokenError" then .error "Invalid token format"
      else if e.name = "NotBeforeError" then .error "Token not active yet"
      else .error ("Token verification failed: " ++ e.message)
    | .ok p =>
      if falsyOptStr p.userId || falsyOptStr p.email then
        .error "Invalid token payload: missing required fields"
      else .ok p

/-! ## HTTP layer: auth interceptor and role gate -/

/-- Body of an HTTP response: the uniform JSON failure envelope
`\x7b error, message \x7d`, or any other body a handler produces. -/
inductive BodyVal where
  | errJson (error : String) (message : String)
  | other (s : String)
  deriving DecidableEq, Repr

/-- An HTTP response: status, body, headers. -/
structure HttpResponse where
  status : Nat
  body : BodyVal
  headers : List (String × String)
  deriving DecidableEq, Repr

/-- The value of an incoming `Authorization` header: its literal text, plus
the structured JWT that the substring after the 7-character scheme prefix
decodes to (`none` when that substring is not a well-formed JWT). -/
structure HeaderVal where
  text : String
  bearerDecoded : Option Token
  deriving DecidableEq, Repr

/-- An incoming request, observed by the middleware only through
`request.headers.get("authorization")`. -/
structure Request where
  authorization : Option HeaderVal
  deriving DecidableEq, Repr

/-- The request enriched with the verified identity
(`Object.assign(request, \x7b user \x7d)`). -/
structure AuthedRequest where
  req : Request
  user : Payload
  deriving DecidableEq, Repr

/-- What a call can produce: a returned response, or a thrown error carrying
its message. -/
inductive Outcome where
  | response (r : HttpResponse)
  | thrown (msg : String)
  deriving DecidableEq, Repr

/-- A wrapped handler `H`. -/
def Handler : Type :=
  AuthedRequest → Outcome

/-- Headers of every middleware failure response:
`Content-Type: application/json` and the `WWW-Authenticate: Bearer`
challenge. -/
def jsonAuthHeaders : List (String × String) :=
  [("Content-Type", "application/json"), ("WWW-Authenticate", "Bearer")]

/-- A 401 failure response of the auth interceptor. -/
def authFail (error message : String) : HttpResponse :=
  ⟨401, .errJson error message, jsonAuthHeaders⟩

/-- The 401 returned when the `Authorization` header is missing (or empty, which
JavaScript treats the same via falsiness). -/
def respMissingHeader : HttpResponse :=
  authFail "Authentication required" "Authorization header is missing"

/-- The 401 returned when the header does not start with `"Bearer "`. -/
def respBadScheme : HttpResponse :=
  authFail "Invalid authentication format"
    "Authorization header must start with \x27Bearer \x27"

/-- The 401 returned when the candidate token is empty or shorter than 10
characters. -/
def respShortToken : HttpResponse :=
  authFail "Invalid token" "Token is malformed or too short"

/-- The interceptor's catch block: maps the message of any caught error to a
401 response, by substring match. -/
def catchBranch (msg : String) : HttpResponse :=
  if strIncludes msg "expired" then
    authFail "Token expired" "Please refresh your token and try again"
  else if strIncludes msg "Invalid token" then
    authFail "Invalid token" "Token verification failed"
  else
    authFail "Authentication failed" "Unable to authenticate request"

/-- Function `authMiddleware(handler)` applied to a request: header checks, token
extraction (`authHeader.substring(7)`), length precheck, secure
verification, then the handler; the surrounding try/catch converts any
thrown error — from verification or from the handler — into a 401 via
`catchBranch`. -/
def authMiddleware (handler : Handler) (st : ModuleState) (now : Int)
    (req : Request) : Outcome :=
  match req.authorization with
  | none => .response respMissingHeader
  | some h =>
    if h.text = "" then .response respMissingHeader
    else if ¬ strStartsWith h.text "Bearer " then .response respBadScheme
    else
      if h.text.drop 7 = "" ∨ (h.text.drop 7).length < 10 then .response respShortToken
      else
        match verifyTokenSecure ⟨h.text.drop 7, h.bearerDecoded⟩ st now with
        | .error msg => .response (catchBranch msg)
        | .ok user =>
          match handler ⟨req, user⟩ with
          | .thrown msg => .response (catchBranch msg)
          | .response r => .response r

/-- The 403 response of `requireRole`: note its headers carry only
`Content-Type`, not the `WWW-Authenticate` challenge. -/
def forbiddenResp (roles : List String) : HttpResponse :=
  ⟨403, .errJson "Insufficient permissions"
    ("Access denied. Required roles: " ++ String.intercalate ", " roles),
    [("Content-Type", "application/json")]⟩

/-- Function `requireRole(roles)(handler)`: wraps the handler in the role check
(`!request.user.role || !roles.includes(request.user.role)`) and hands the
result to `authMiddleware`. -/
def requireRole (roles : List String) (handler : Handler) (st : ModuleState)
    (now : Int) (req : Request) : Outcome :=
  authMiddleware
    (fun areq =>
      if falsyOptStr areq.user.role || ! roles.contains (areq.user.role.getD "") then
        .response (forbiddenResp roles)
      else handler areq)
    st now req

/-! ## Login flow (`src/app/api/login/route.ts`) -/

/-- The token payload the login route builds after password verification:
`\x7b userId: user.user_id, role: userDetails.role \x7d` — no `email`. -/
def loginTokenPayload (userId : String) (role : Option String) : ClaimsIn :=
  ⟨some userId, none, role, none⟩

/-- The token the login route mints: legacy `generateToken` applied to the
minimal login payload. -/
def loginMintToken (userId : String) (role : Option String) (st : ModuleState)
    (now : Int) : TokenStr :=
  generateToken (loginTokenPayload userId role) st now

/-! ## Basic facts about the embedding -/

/-- A rendered token is at least 10 characters long (its header segment
alone exceeds that). -/
theorem renderToken_length (t : Token) : 10 ≤ (renderToken t).length := by
  have h1 : ("alg=" : String).length = 4 := rfl
  have h2 : ((",typ=JWT") : String).length = 8 := rfl
  unfold renderToken renderHeader
  simp only [String.length_append]
  omega

/-- A rendered token is never the empty string. -/
theorem renderToken_ne_empty (t : Token) : renderToken t ≠ "" := by
  intro h
  have hlen := renderToken_length t
  rw [h] at hlen
  exact absurd hlen (by decide)

/-- Simp form of `renderToken_ne_empty`. -/
theorem renderToken_eq_empty_iff (t : Token) : (renderToken t = "") ↔ False := by
  simp [renderToken_ne_empty t]

/-- Simp form of `renderToken_length`. -/
theorem renderToken_length_lt_ten_iff (t : Token) :
    ((renderToken t).length < 10) ↔ False := by
  simp only [iff_false, not_lt]
  have := renderToken_length t
  omega

/-- Hardened verification of a token signed with the hardened options and
the same secret succeeds before `exp + clockTolerance` and returns exactly
the signed payload. -/
theorem jwtVerify_secure_sign (c : ClaimsIn) (secret : String) (n₁ n₂ : Int)
    (h : n₂ < n₁ + secureExpiresInSec + 30) :
    jwtVerify (encodeToken (jwtSign c secret secureSignOpts n₁)) secret secureVerifyOpts n₂ =
      .ok ⟨c.userId, c.email, c.role, c.ttype, some n₁, some (n₁ + secureExpiresInSec),
        some "your-app-name", some "your-app-users"⟩ := by
  have hexp : ¬ ((n₁ + secureExpiresInSec) + 30 ≤ n₂) := by omega
  simp [jwtVerify, encodeToken, jwtSign, secureSignOpts, secureVerifyOpts,
    checkAudIss, checkIss, renderToken_eq_empty_iff, hexp]

/-- Hardened verification of a token signed with the hardened options fails
with `TokenExpiredError` from `exp + clockTolerance` on. -/
theorem jwtVerify_secure_sign_expired (c : ClaimsIn) (secret : String) (n₁ n₂ : Int)
    (h : n₂ ≥ n₁ + secureExpiresInSec + 30) :
    jwtVerify (encodeToken (jwtSign c secret secureSignOpts n₁)) secret secureVerifyOpts n₂ =
      .error .expired := by
  have hexp : (n₁ + secureExpiresInSec) + 30 ≤ n₂ := by omega
  simp [jwtVerify, encodeToken, jwtSign, secureSignOpts, secureVerifyOpts,
    renderToken_eq_empty_iff, hexp]

/-- Legacy verification of a legacy-signed token succeeds strictly before
`exp` and returns exactly the signed payload. -/
theorem jwtVerify_legacy_sign (c : ClaimsIn) (secret : String) (n₁ n₂ : Int)
    (h : n₂ < n₁ + legacyExpiresInSec) :
    jwtVerify (encodeToken (jwtSign c secret legacySignOpts n₁)) secret legacyVerifyOpts n₂ =
      .ok ⟨c.userId, c.email, c.role, c.ttype, some n₁, some (n₁ + legacyExpiresInSec),
        none, none⟩ := by
  have hexp : ¬ (n₁ + legacyExpiresInSec ≤ n₂) := by omega
  simp [jwtVerify, encodeToken, jwtSign, legacySignOpts, legacyVerifyOpts,
    checkAudIss, checkIss, defaultStringSecretAlgs, renderToken_eq_empty_iff, hexp]

/-- Legacy verification of a legacy-signed token fails with
`TokenExpiredError` from `exp` on (no clock tolerance is configured). -/
theorem jwtVerify_legacy_sign_expired (c : ClaimsIn) (secret : String) (n₁ n₂ : Int)
    (h : n₂ ≥ n₁ + legacyExpiresInSec) :
    jwtVerify (encodeToken (jwtSign c secret legacySignOpts n₁)) secret legacyVerifyOpts n₂ =
      .error .expired := by
  have hexp : n₁ + legacyExpiresInSec ≤ n₂ := by omega
  simp [jwtVerify, encodeToken, jwtSign, legacySignOpts, legacyVerifyOpts,
    defaultStringSecretAlgs, renderToken_eq_empty_iff, hexp]

/-- A concrete module state: what `moduleInit` yields in the test
environment with no secret supplied. -/
def st0 : ModuleState :=
  ⟨fallbackSecret, fallbackSecret⟩

/-- C1: for every claims input with a valid (non-empty) subject id, an
email, and an optional role, verifying a freshly signed token before its
expiry returns exactly the signed claims: `verifyTokenSecure` after
`generateTokenSecure` yields a payload whose `userId`, `email` and `role`
equal the input, ignoring the server-assigned timestamps. -/
theorem C1_sign_verify_roundtrip (uid email : String) (role : Option String)
    (st : ModuleState) (n₁ n₂ : Int)
    (hu : uid ≠ "") (he : email ≠ "") (hfresh : n₂ < n₁ + secureExpiresInSec) :
    ∃ tok p, generateTokenSecure uid email role st n₁ = .ok tok ∧
      verifyTokenSecure tok st n₂ = .ok p ∧
      p.userId = some uid ∧ p.email = some email ∧ p.role = role := by
  refine ⟨encodeToken (jwtSign ⟨some uid, some email, role, none⟩
      st.validatedSecret secureSignOpts n₁),
    ⟨some uid, some email, role, none, some n₁, some (n₁ + secureExpiresInSec),
      some "your-app-name", some "your-app-users"⟩, ?_, ?_, rfl, rfl, rfl⟩
  · simp [generateTokenSecure, hu, he]
  · have hv := jwtVerify_secure_sign ⟨some uid, some email, role, none⟩
      st.validatedSecret n₁ n₂ (by have h900 : secureExpiresInSec = (900 : Int) := rfl; omega)
    simp only [encodeToken] at hv
    simp [verifyTokenSecure, encodeToken, renderToken_eq_empty_iff,
      renderToken_length_lt_ten_iff, hv, falsyOptStr, hu, he]

/-- Witness for C1 at a concrete input. -/
theorem C1_sign_verify_roundtrip_witness :
    ∃ tok p, generateTokenSecure "42" "user@example.com" (some "admin") st0 0 = .ok tok ∧
      verifyTokenSecure tok st0 100 = .ok p ∧
      p.userId = some "42" ∧ p.email = some "user@example.com" ∧ p.role = some "admin" :=
  C1_sign_verify_roundtrip "42" "user@example.com" (some "admin") st0 0 100
    (by decide) (by decide) (by decide)

/-- The hardened access token used for concrete boundary checks. -/
def tokC5 : TokenStr :=
  encodeToken (jwtSign ⟨some "42", some "a@b.c", none, none⟩ st0.validatedSecret
    secureSignOpts 0)

/-- C5: for tokens signed by each path, verification strictly after
`expires_at` plus that path's clock-skew allowance (30s for the hardened
verifier, 0s ≤ 30s for the legacy one) fails with the Expired error, and
verification strictly before `expires_at` succeeds (in particular it does
not fail with Expired). -/
theorem C5_expiry_boundary (uid email : String) (role : Option String)
    (st : ModuleState) (n₁ t : Int) (hu : uid ≠ "") (he : email ≠ "") :
    (∀ tok, generateTokenSecure uid email role st n₁ = .ok tok →
      (n₁ + secureExpiresInSec + 30 < t →
        verifyTokenSecure tok st t = .error "Token has expired") ∧
      (t < n₁ + secureExpiresInSec → ∃ p, verifyTokenSecure tok st t = .ok p)) ∧
    (n₁ + legacyExpiresInSec + 0 < t →
      verifyToken (generateToken ⟨some uid, some email, role, none⟩ st n₁) st t =
        .error .expired) ∧
    (t < n₁ + legacyExpiresInSec →
      ∃ p, verifyToken (generateToken ⟨some uid, some email, role, none⟩ st n₁) st t =
        .ok p) := by
  refine ⟨?_, ?_, ?_⟩
  · intro tok htok
    simp [generateTokenSecure, hu, he] at htok
    subst htok
    constructor
    · intro hlate
      have hv := jwtVerify_secure_sign_expired ⟨some uid, some email, role, none⟩
        st.validatedSecret n₁ t (by omega)
      simp only [encodeToken] at hv
      simp [verifyTokenSecure, encodeToken, renderToken_eq_empty_iff,
        renderToken_length_lt_ten_iff, hv, JwtError.name]
    · intro hearly
      have hv := jwtVerify_secure_sign ⟨some uid, some email, role, none⟩
        st.validatedSecret n₁ t
        (by have h900 : secureExpiresInSec = (900 : Int) := rfl; omega)
      simp only [encodeToken] at hv
      refine ⟨⟨some uid, some email, role, none, some n₁, some (n₁ + secureExpiresInSec),
        some "your-app-name", some "your-app-users"⟩, ?_⟩
      simp [verifyTokenSecure, encodeToken, renderToken_eq_empty_iff,
        renderToken_length_lt_ten_iff, hv, falsyOptStr, hu, he]
  · intro hlate
    exact jwtVerify_legacy_sign_expired ⟨some uid, some email, role, none⟩
      st.secretConst n₁ t (by omega)
  · intro hearly
    exact ⟨⟨some uid, some email, role, none, some n₁, some (n₁ + legacyExpiresInSec),
      none, none⟩, jwtVerify_legacy_sign ⟨some uid, some email, role, none⟩
      st.secretConst n₁ t (by omega)⟩

/-- Witness for C5 at concrete boundary times (hardened: expiry 900, skew
30, checked at 931 and 100; legacy: expiry 86400, skew 0, checked at 86401
and 100). -/
theorem C5_expiry_boundary_witness :
    verifyTokenSecure tokC5 st0 931 = .error "Token has expired" ∧
    (∃ p, verifyTokenSecure tokC5 st0 100 = .ok p) ∧
    verifyToken (generateToken ⟨some "42", some "a@b.c", none, none⟩ st0 0) st0 86401 =
      .error .expired ∧
    (∃ p, verifyToken (generateToken ⟨some "42", some "a@b.c", none, none⟩ st0 0) st0 100 =
      .ok p) :=
  ⟨((C5_expiry_boundary "42" "a@b.c" none st0 0 931 (by decide) (by decide)).1 tokC5
      (by decide)).1 (by decide),
   ((C5_expiry_boundary "42" "a@b.c" none st0 0 100 (by decide) (by decide)).1 tokC5
      (by decide)).2 (by decide),
   (C5_expiry_boundary "42" "a@b.c" none st0 0 86401 (by decide) (by decide)).2.1 (by decide),
   (C5_expiry_boundary "42" "a@b.c" none st0 0 100 (by decide) (by decide)).2.2 (by decide)⟩

/-- Modelled from the spec's wording "access-token TTL is short
(minutes-scale)": between one minute and one hour. -/
def minutesScale (ttl : Int) : Prop :=
  60 ≤ ttl ∧ ttl ≤ 3600

instance (ttl : Int) : Decidable (minutesScale ttl) :=
  inferInstanceAs (Decidable (60 ≤ ttl ∧ ttl ≤ 3600))

/-- C8 counterexample: the legacy signing path `generateToken` is an
access-token signer whose TTL is 24 hours — not minutes-scale — and the
refresh TTL (7 days) is only 7 times, not at least 10 times, that access
TTL; so the claim fails on the legacy path. -/
theorem C8_counterexample :
    (∃ t, (generateToken ⟨some "42", none, none, none⟩ st0 0).decoded = some t ∧
      t.payload.iat = some 0 ∧ t.payload.exp = some legacyExpiresInSec) ∧
    ¬ minutesScale legacyExpiresInSec ∧
    ¬ (10 * legacyExpiresInSec ≤ refreshExpiresInSec) := by
  refine ⟨⟨_, rfl, rfl, by decide⟩, by decide, by decide⟩

/-- C8 amended: every signing path sets `exp = iat + ttl` with a TTL fixed
by the path — 86400s for the legacy `generateToken`, 900s for
`generateTokenSecure`, 604800s for `generateRefreshToken`.  The hardened
pair satisfies the claim (900s is minutes-scale and 604800 ≥ 10·900), but
the legacy access path has a 24-hour TTL that is not minutes-scale and is
not an order of magnitude below the refresh TTL. -/
theorem C8_amended_ttl (uid email : String) (role : Option String) (c : ClaimsIn)
    (st : ModuleState) (n : Int) (hu : uid ≠ "") (he : email ≠ "") :
    (∃ t, (generateToken c st n).decoded = some t ∧
      t.payload.iat = some n ∧ t.payload.exp = some (n + legacyExpiresInSec)) ∧
    (∃ tok t, generateTokenSecure uid email role st n = .ok tok ∧
      tok.decoded = some t ∧
      t.payload.iat = some n ∧ t.payload.exp = some (n + secureExpiresInSec)) ∧
    (∃ tok t, generateRefreshToken uid st n = .ok tok ∧ tok.decoded = some t ∧
      t.payload.iat = some n ∧ t.payload.exp = some (n + refreshExpiresInSec)) ∧
    minutesScale secureExpiresInSec ∧
    10 * secureExpiresInSec ≤ refreshExpiresInSec ∧
    ¬ minutesScale legacyExpiresInSec ∧
    ¬ (10 * legacyExpiresInSec ≤ refreshExpiresInSec) := by
  refine ⟨⟨_, rfl, rfl, rfl⟩,
    ⟨encodeToken (jwtSign ⟨some uid, some email, role, none⟩ st.validatedSecret
        secureSignOpts n),
      jwtSign ⟨some uid, some email, role, none⟩ st.validatedSecret secureSignOpts n,
      by simp [generateTokenSecure, hu, he], rfl, rfl, rfl⟩,
    ⟨encodeToken (jwtSign ⟨some uid, none, none, some "refresh"⟩ st.validatedSecret
        refreshSignOpts n),
      jwtSign ⟨some uid, none, none, some "refresh"⟩ st.validatedSecret refreshSignOpts n,
      by simp [generateRefreshToken, hu], rfl, rfl, rfl⟩,
    by decide, by decide, by decide, by decide⟩

/-- Witness for C8's amended theorem at a concrete input. -/
theorem C8_amended_ttl_witness :
    (∃ t, (generateToken ⟨some "7", none, none, none⟩ st0 5).decoded = some t ∧
      t.payload.iat = some 5 ∧ t.payload.exp = some (5 + legacyExpiresInSec)) ∧
    (∃ tok t, generateTokenSecure "7" "u@e.io" none st0 5 = .ok tok ∧
      tok.decoded = some t ∧
      t.payload.iat = some 5 ∧ t.payload.exp = some (5 + secureExpiresInSec)) ∧
    (∃ tok t, generateRefreshToken "7" st0 5 = .ok tok ∧ tok.decoded = some t ∧
      t.payload.iat = some 5 ∧ t.payload.exp = some (5 + refreshExpiresInSec)) ∧
    minutesScale secureExpiresInSec ∧
    10 * secureExpiresInSec ≤ refreshExpiresInSec ∧
    ¬ minutesScale legacyExpiresInSec ∧
    ¬ (10 * legacyExpiresInSec ≤ refreshExpiresInSec) :=
  C8_amended_ttl "7" "u@e.io" none ⟨some "7", none, none, none⟩ st0 5
    (by decide) (by decide)

/-- C7 counterexample: with `NODE_ENV = 'test'` and no signing secret in
the environment, module initialization succeeds silently and both secret
constants are the hardcoded fallback — startup does not fail loudly. -/
theorem C7_counterexample :
    moduleInit ⟨none, some "test"⟩ = .ok st0 ∧
    st0.validatedSecret = fallbackSecret ∧ st0.secretConst = fallbackSecret := by
  refine ⟨by decide, rfl, rfl⟩

/-- C7 amended: outside the test environment, loading the module throws
when the secret is absent, empty, or shorter than 32 characters, and a valid
secret is adopted as both constants; but with `NODE_ENV = 'test'` the module
loads silently with the fallback-defaulted constant for both secrets. -/
theorem C7_amended_secret_validation (env : Env) :
    (env.nodeEnv ≠ some "test" →
      (env.jwtSecret = none ∨ env.jwtSecret = some "" ∨
        (∀ s, env.jwtSecret = some s → s.length < 32)) →
      ∃ e, moduleInit env = .error e) ∧
    (env.nodeEnv = some "test" →
      moduleInit env = .ok ⟨jwtSecretConst env, jwtSecretConst env⟩) ∧
    (∀ s, env.jwtSecret = some s → s ≠ "" → 32 ≤ s.length →
      moduleInit env = .ok ⟨s, s⟩) := by
  refine ⟨?_, ?_, ?_⟩
  · intro hne hbad
    rcases hbad with h | h | h
    · exact ⟨"JWT_SECRET environment variable is required for security",
        by simp [moduleInit, validatedJwtSecret, validateJWTSecret, hne, h]⟩
    · exact ⟨"JWT_SECRET environment variable is required for security",
        by simp [moduleInit, validatedJwtSecret, validateJWTSecret, hne, h]⟩
    · match hsec : env.jwtSecret with
      | none =>
        exact ⟨"JWT_SECRET environment variable is required for security",
          by simp [moduleInit, validatedJwtSecret, validateJWTSecret, hne, hsec]⟩
      | some s =>
        have hlen := h s hsec
        by_cases hs0 : s = ""
        · exact ⟨"JWT_SECRET environment variable is required for security",
            by simp [moduleInit, validatedJwtSecret, validateJWTSecret, hne, hsec, hs0]⟩
        · exact ⟨"JWT_SECRET must be at least 32 characters long for security",
            by simp [moduleInit, validatedJwtSecret, validateJWTSecret,
              hne, hsec, hs0, hlen]⟩
  · intro htest
    simp [moduleInit, validatedJwtSecret, htest]
  · intro s hsec hs0 hlen
    have hc : jwtSecretConst env = s := by simp [jwtSecretConst, hsec, hs0]
    by_cases htest : env.nodeEnv = some "test"
    · simp [moduleInit, validatedJwtSecret, htest, hc]
    · simp [moduleInit, validatedJwtSecret, validateJWTSecret, htest, hsec, hs0, hc,
        show ¬ s.length < 32 by omega]

/-- Witness for C7's amended theorem: a missing secret outside tests fails
loudly; a 32-character secret is adopted verbatim. -/
theorem C7_amended_secret_validation_witness :
    (∃ e, moduleInit ⟨none, none⟩ = .error e) ∧
    moduleInit ⟨some "0123456789abcdef0123456789abcdef", none⟩ =
      .ok ⟨"0123456789abcdef0123456789abcdef", "0123456789abcdef0123456789abcdef"⟩ :=
  ⟨(C7_amended_secret_validation ⟨none, none⟩).1 (by simp) (Or.inl rfl),
   (C7_amended_secret_validation ⟨some "0123456789abcdef0123456789abcdef", none⟩).2.2
     "0123456789abcdef0123456789abcdef" rfl (by decide) (by decide)⟩

/-- A payload with no registered claims, used for algorithm-pinning
counterexamples (no `exp`, so the legacy verification applies no expiry
check). -/
def noExpPayload : Payload :=
  ⟨some "42", some "user@example.com", none, none, none, none, none, none⟩

/-- A token whose header declares HS384 and whose signature is a correct
HS384 MAC of the fallback secret over its own header and payload. -/
def hs384Token : Token :=
  ⟨⟨"HS384"⟩, noExpPayload, .mac "HS384" fallbackSecret ⟨"HS384"⟩ noExpPayload⟩

/-- A token whose header declares the `none` algorithm but still carries a
signature-shaped third segment. -/
def noneAlgToken : Token :=
  ⟨⟨"none"⟩, noExpPayload, .raw "signature-shaped-bytes"⟩

/-- C2 counterexample: the legacy `verifyToken` path accepts a token whose
header declares HS384 (not the pinned HS256) when it carries a correct
HS384 MAC under the same secret — jsonwebtoken's string-secret default
allows the whole HMAC family when no `algorithms` option is passed.  So
"every verification path rejects every non-HS256 algorithm" is false. -/
theorem C2_counterexample :
    hs384Token.header.alg ≠ "HS256" ∧
    verifyToken (encodeToken hs384Token) st0 0 = .ok noExpPayload := by
  exact ⟨by decide, by decide⟩

/-- C2 amended: the hardened `verifyTokenSecure` rejects every decodable
token whose header algorithm is not HS256 (including `none`, even with a
signature-shaped segment present) with the `Invalid token format`
(JsonWebTokenError) outcome; the legacy `verifyToken` rejects every
algorithm outside jsonwebtoken's HMAC default list HS256/HS384/HS512, but
accepts HS384/HS512 tokens MACed with the same secret. -/
theorem C2_amended_algorithm_pinning (tok : TokenStr) (t : Token)
    (st : ModuleState) (n : Int)
    (hdec : tok.decoded = some t) (halg : t.header.alg ≠ "HS256") :
    (tok.text ≠ "" → ¬ tok.text.length < 10 →
      verifyTokenSecure tok st n = .error "Invalid token format") ∧
    (tok.text ≠ "" → t.header.alg ∉ defaultStringSecretAlgs →
      ∃ e, verifyToken tok st n = .error e) ∧
    verifyToken (encodeToken hs384Token) st0 0 = .ok noExpPayload := by
  refine ⟨?_, ?_, by decide⟩
  · intro hne hlen
    by_cases hs : t.sig = Sig.empty
    · simp [verifyTokenSecure, jwtVerify, hne, hlen, hdec, hs, JwtError.name]
    · simp [verifyTokenSecure, jwtVerify, secureVerifyOpts, hne, hlen, hdec, hs,
        halg, JwtError.name]
  · intro hne hnotin
    by_cases hs : t.sig = Sig.empty
    · exact ⟨.signatureRequired,
        by simp [verifyToken, jwtVerify, legacyVerifyOpts, hne, hdec, hs]⟩
    · refine ⟨.invalidAlgorithm, ?_⟩
      have hcon : defaultStringSecretAlgs.contains t.header.alg = false := by
        simpa using hnotin
      simp [verifyToken, jwtVerify, legacyVerifyOpts, hne, hdec, hs, hcon]
      intro hmem
      exact absurd hmem hnotin

/-- Witness for C2's amended theorem: a `none`-algorithm token with a
signature-shaped segment is rejected by both paths. -/
theorem C2_amended_algorithm_pinning_witness :
    verifyTokenSecure (encodeToken noneAlgToken) st0 0 = .error "Invalid token format" ∧
    (∃ e, verifyToken (encodeToken noneAlgToken) st0 0 = .error e) :=
  ⟨(C2_amended_algorithm_pinning (encodeToken noneAlgToken) noneAlgToken st0 0
      rfl (by decide)).1 (by decide) (by decide),
   (C2_amended_algorithm_pinning (encodeToken noneAlgToken) noneAlgToken st0 0
      rfl (by decide)).2.1 (by decide) (by decide)⟩

/-! ## Middleware facts and fixtures -/

/-- A header that passes the `"Bearer "` scheme check is in particular
non-empty. -/
theorem strStartsWith_bearer_ne_empty (s : String)
    (h : strStartsWith s "Bearer " = true) : s ≠ "" := by
  intro hs
  subst hs
  exact absurd h (by decide)

/-- Every response the interceptor's catch block produces has status 401. -/
theorem catchBranch_status (msg : String) : (catchBranch msg).status = 401 := by
  unfold catchBranch
  split
  · rfl
  · split <;> rfl

/-- Every response the interceptor's catch block produces is an `authFail`
envelope. -/
theorem catchBranch_shape (msg : String) : ∃ e m, catchBranch msg = authFail e m := by
  unfold catchBranch
  split
  · exact ⟨_, _, rfl⟩
  · split
    · exact ⟨_, _, rfl⟩
    · exact ⟨_, _, rfl⟩

/-- When `jwt.verify` succeeds, the returned payload is exactly the decoded
token's payload. -/
theorem jwtVerify_ok_shape (tok : TokenStr) (secret : String) (opts : VerifyOpts)
    (now : Int) (p : Payload) (h : jwtVerify tok secret opts now = .ok p) :
    ∃ t, tok.decoded = some t ∧ p = t.payload := by
  unfold jwtVerify checkAudIss checkIss at h
  split at h
  · simp at h
  · split at h
    · simp at h
    · rename_i t hdec
      refine ⟨t, hdec, ?_⟩
      repeat' split at h
      all_goals simp_all

/-- A decodable token whose payload lacks (or has an empty) `email` never
passes `verifyTokenSecure`. -/
theorem verifyTokenSecure_missing_email (tok : TokenStr) (t : Token)
    (st : ModuleState) (now : Int) (p : Payload) (hdec : tok.decoded = some t)
    (hfals : falsyOptStr t.payload.email = true) :
    verifyTokenSecure tok st now ≠ .ok p := by
  intro hok
  unfold verifyTokenSecure at hok
  split at hok
  · simp at hok
  · split at hok
    · simp at hok
    · split at hok
      · rename_i e hjv
        split at hok
        · simp at hok
        · split at hok
          · simp at hok
          · split at hok
            · simp at hok
            · simp at hok
      · rename_i q hjv
        split at hok
        · simp at hok
        · rename_i hcond
          obtain ⟨t', hdec', hq⟩ := jwtVerify_ok_shape tok st.validatedSecret
            secureVerifyOpts now q hjv
          rw [hdec] at hdec'
          have ht : t' = t := (Option.some.inj hdec').symm
          apply hcond
          rw [hq, ht]
          simp [hfals]

/-- A handler that always succeeds with a plain 200. -/
def okHandler : Handler :=
  fun _ => .response ⟨200, .other "ok", []⟩

/-- A handler that always throws, as business-logic handlers may after
authentication succeeds. -/
def failingHandler : Handler :=
  fun _ => .thrown "database connection lost"

/-- A hardened token whose claims carry `role = "user"`. -/
def tokenUserRole : Token :=
  jwtSign ⟨some "42", some "user@example.com", some "user", none⟩
    st0.validatedSecret secureSignOpts 0

/-- The `Authorization` header presenting `tokenUserRole`. -/
def hdrUserRole : HeaderVal :=
  ⟨"Bearer " ++ renderToken tokenUserRole, some tokenUserRole⟩

/-- A request presenting `tokenUserRole`. -/
def reqUserRole : Request :=
  ⟨some hdrUserRole⟩

/-- The payload `verifyTokenSecure` resolves for `tokenUserRole`. -/
def userRolePayload : Payload :=
  ⟨some "42", some "user@example.com", some "user", none, some 0, some 900,
    some "your-app-name", some "your-app-users"⟩

/-- C4: the interceptor answers 401 — independently of the module secrets,
the clock, the wrapped handler, and any token content — for a missing
`Authorization` header, an empty one, `"Token abc"`, `"bearer abc"` and
`"Bearer"`; a `"Bearer ..."` header whose candidate token is empty or
shorter than 10 characters also gets a 401 without verification; and
otherwise the interceptor proceeds exactly to `verifyTokenSecure` on the
candidate token. -/
theorem C4_scheme_enforcement (handler : Handler) (st : ModuleState) (now : Int) :
    authMiddleware handler st now ⟨none⟩ = .response respMissingHeader ∧
    (∀ d, authMiddleware handler st now ⟨some ⟨"", d⟩⟩ = .response respMissingHeader) ∧
    (∀ d, authMiddleware handler st now ⟨some ⟨"Token abc", d⟩⟩ = .response respBadScheme) ∧
    (∀ d, authMiddleware handler st now ⟨some ⟨"bearer abc", d⟩⟩ = .response respBadScheme) ∧
    (∀ d, authMiddleware handler st now ⟨some ⟨"Bearer", d⟩⟩ = .response respBadScheme) ∧
    respMissingHeader.status = 401 ∧ respBadScheme.status = 401 ∧
    respShortToken.status = 401 ∧
    (∀ h, strStartsWith h.text "Bearer " = true →
      (h.text.drop 7 = "" ∨ (h.text.drop 7).length < 10) →
      authMiddleware handler st now ⟨some h⟩ = .response respShortToken) ∧
    (∀ h, strStartsWith h.text "Bearer " = true →
      ¬ (h.text.drop 7 = "" ∨ (h.text.drop 7).length < 10) →
      authMiddleware handler st now ⟨some h⟩ =
        match verifyTokenSecure ⟨h.text.drop 7, h.bearerDecoded⟩ st now with
        | .error msg => .response (catchBranch msg)
        | .ok user =>
          match handler ⟨⟨some h⟩, user⟩ with
          | .thrown msg => .response (catchBranch msg)
          | .response r => .response r) := by
  refine ⟨rfl, fun d => rfl, fun d => rfl, fun d => rfl, fun d => rfl,
    rfl, rfl, rfl, ?_, ?_⟩
  · intro h hsw hshort
    have hne := strStartsWith_bearer_ne_empty h.text hsw
    simp [authMiddleware, hne, hsw, hshort]
  · intro h hsw hshort
    have hne := strStartsWith_bearer_ne_empty h.text hsw
    simp [authMiddleware, hne, hsw, hshort]

/-- Witness for C4 at concrete headers, handler, state and time. -/
theorem C4_scheme_enforcement_witness :
    authMiddleware okHandler st0 0 ⟨some ⟨"Token abc", none⟩⟩ = .response respBadScheme ∧
    authMiddleware okHandler st0 0 ⟨some ⟨"Bearer abc", none⟩⟩ = .response respShortToken ∧
    authMiddleware okHandler st0 0 ⟨some hdrUserRole⟩ =
      match verifyTokenSecure ⟨hdrUserRole.text.drop 7, hdrUserRole.bearerDecoded⟩ st0 0 with
      | .error msg => .response (catchBranch msg)
      | .ok user =>
        match okHandler ⟨⟨some hdrUserRole⟩, user⟩ with
        | .thrown msg => .response (catchBranch msg)
        | .response r => .response r :=
  ⟨(C4_scheme_enforcement okHandler st0 0).2.2.1 none,
   (C4_scheme_enforcement okHandler st0 0).2.2.2.2.2.2.2.2.1 ⟨"Bearer abc", none⟩
     (by decide) (by decide),
   (C4_scheme_enforcement okHandler st0 0).2.2.2.2.2.2.2.2.2 hdrUserRole
     (by decide) (by decide)⟩

/-- C3 counterexample: on a request whose token verifies successfully, a
handler that throws does not see its exception propagate — the interceptor
returns a 401 "Authentication failed" response instead. -/
theorem C3_counterexample :
    authMiddleware failingHandler st0 100 reqUserRole =
      .response (authFail "Authentication failed" "Unable to authenticate request") ∧
    authMiddleware failingHandler st0 100 reqUserRole ≠
      .thrown "database connection lost" := by
  exact ⟨by decide, by decide⟩

/-- C3 amended: when authentication succeeds and the wrapped handler then
throws, the interceptor catches the error and converts it into the 401
response determined by `catchBranch` applied to the thrown message (the
same message-substring mapping used for verification errors). -/
theorem C3_amended_handler_errors_caught (handler : Handler) (st : ModuleState)
    (now : Int) (req : Request) (h : HeaderVal) (user : Payload) (msg : String)
    (hauth : req.authorization = some h) (hne : h.text ≠ "")
    (hsw : strStartsWith h.text "Bearer " = true)
    (hlen : ¬ (h.text.drop 7 = "" ∨ (h.text.drop 7).length < 10))
    (hver : verifyTokenSecure ⟨h.text.drop 7, h.bearerDecoded⟩ st now = .ok user)
    (hthrow : handler ⟨req, user⟩ = .thrown msg) :
    authMiddleware handler st now req = .response (catchBranch msg) := by
  simp [authMiddleware, hauth, hne, hsw, hlen, hver, hthrow]

/-- Witness for C3's amended theorem at a concrete request and handler. -/
theorem C3_amended_handler_errors_caught_witness :
    authMiddleware failingHandler st0 100 reqUserRole =
      .response (catchBranch "database connection lost") :=
  C3_amended_handler_errors_caught failingHandler st0 100 reqUserRole hdrUserRole
    userRolePayload "database connection lost" rfl (by decide) (by decide)
    (by decide) (by decide) (by decide)

/-- A hardened token whose claims carry the present-but-empty role `""`. -/
def tokenEmptyRole : Token :=
  jwtSign ⟨some "42", some "user@example.com", some "", none⟩
    st0.validatedSecret secureSignOpts 0

/-- A request presenting `tokenEmptyRole`. -/
def reqEmptyRole : Request :=
  ⟨some ⟨"Bearer " ++ renderToken tokenEmptyRole, some tokenEmptyRole⟩⟩

/-- The payload `verifyTokenSecure` resolves for `tokenEmptyRole`. -/
def emptyRolePayload : Payload :=
  ⟨some "42", some "user@example.com", some "", none, some 0, some 900,
    some "your-app-name", some "your-app-users"⟩

/-- C6 counterexample: with acceptable set `[""]` and a verified token whose
role field is present and a member of that set (the empty string), the role
gate still answers 403 instead of delegating — JavaScript falsiness makes
the code treat the present role `""` as absent.  So "403 exactly when the
role is absent or not a member, otherwise delegate" fails at this input. -/
theorem C6_counterexample :
    verifyTokenSecure ⟨renderToken tokenEmptyRole, some tokenEmptyRole⟩ st0 100 =
      .ok emptyRolePayload ∧
    emptyRolePayload.role = some "" ∧
    [""].contains "" = true ∧
    requireRole [""] okHandler st0 100 reqEmptyRole = .response (forbiddenResp [""]) ∧
    okHandler ⟨reqEmptyRole, emptyRolePayload⟩ = .response ⟨200, .other "ok", []⟩ := by
  exact ⟨by decide, rfl, by decide, by decide, rfl⟩

/-- C6 amended: on a request whose token verifies, the role gate answers
403 (Forbidden) whenever the resolved role is absent, empty, or not a
member of the acceptable set, and delegates to the wrapped handler with the
same identity-enriched request whenever the role is a non-empty member. -/
theorem C6_amended_role_gating (roles : List String) (handler : Handler)
    (st : ModuleState) (now : Int) (req : Request) (h : HeaderVal) (user : Payload)
    (hauth : req.authorization = some h) (hne : h.text ≠ "")
    (hsw : strStartsWith h.text "Bearer " = true)
    (hlen : ¬ (h.text.drop 7 = "" ∨ (h.text.drop 7).length < 10))
    (hver : verifyTokenSecure ⟨h.text.drop 7, h.bearerDecoded⟩ st now = .ok user) :
    ((user.role = none ∨ user.role = some "" ∨
        (∀ r, user.role = some r → roles.contains r = false)) →
      requireRole roles handler st now req = .response (forbiddenResp roles) ∧
      (forbiddenResp roles).status = 403) ∧
    (∀ r, user.role = some r → r ≠ "" → roles.contains r = true →
      requireRole roles handler st now req =
        match handler ⟨req, user⟩ with
        | .thrown msg => .response (catchBranch msg)
        | .response resp => .response resp) := by
  constructor
  · intro hbad
    have hcond : falsyOptStr user.role = true ∨ user.role.getD "" ∉ roles := by
      rcases hbad with h0 | h0 | h0
      · exact .inl (by simp [falsyOptStr, h0])
      · exact .inl (by simp [falsyOptStr, h0])
      · match hr : user.role with
        | none => exact .inl (by simp [falsyOptStr])
        | some r =>
          by_cases hr0 : r = ""
          · exact .inl (by simp [falsyOptStr, hr0])
          · exact .inr (by simpa using h0 r hr)
    refine ⟨?_, rfl⟩
    simp [requireRole, authMiddleware, hauth, hne, hsw, hlen, hver, hcond]
  · intro r hr hr0 hmem
    have hcond : ¬ (falsyOptStr user.role = true ∨ user.role.getD "" ∉ roles) := by
      simp [falsyOptStr, hr, hr0]
      simpa using hmem
    simp [requireRole, authMiddleware, hauth, hne, hsw, hlen, hver, hcond]

/-- Witness for C6's amended theorem: a verified `role = "user"` token gets
403 from a gate for `["admin"]` and reaches the handler through a gate for
`["user", "admin"]`. -/
theorem C6_amended_role_gating_witness :
    (requireRole ["admin"] okHandler st0 100 reqUserRole =
      .response (forbiddenResp ["admin"]) ∧
      (forbiddenResp ["admin"]).status = 403) ∧
    requireRole ["user", "admin"] okHandler st0 100 reqUserRole =
      .response ⟨200, .other "ok", []⟩ := by
  constructor
  · exact (C6_amended_role_gating ["admin"] okHandler st0 100 reqUserRole hdrUserRole
      userRolePayload rfl (by decide) (by decide) (by decide) (by decide)).1
      (Or.inr (Or.inr (fun r hr => by
        have h2 : (some "user" : Option String) = some r := hr
        injection h2 with h3
        subst h3
        decide)))
  · have hdel := (C6_amended_role_gating ["user", "admin"] okHandler st0 100 reqUserRole
      hdrUserRole userRolePayload rfl (by decide) (by decide) (by decide) (by decide)).2
      "user" rfl (by decide) (by decide)
    simpa [okHandler] using hdel

/-- Every response the auth interceptor produces is either a response of
the wrapped handler or one of the interceptor's own `authFail` 401
envelopes. -/
theorem authMiddleware_response_shape (handler : Handler) (st : ModuleState)
    (now : Int) (req : Request) (out : HttpResponse)
    (h : authMiddleware handler st now req = .response out) :
    (∃ areq, handler areq = .response out) ∨ ∃ e m, out = authFail e m := by
  unfold authMiddleware at h
  split at h
  · exact .inr ⟨_, _, by simpa using h.symm⟩
  · split at h
    · exact .inr ⟨_, _, by simpa using h.symm⟩
    · split at h
      · exact .inr ⟨_, _, by simpa using h.symm⟩
      · split at h
        · exact .inr ⟨_, _, by simpa using h.symm⟩
        · split at h
          · rename_i msg hv
            obtain ⟨e, m, hc⟩ := catchBranch_shape msg
            refine .inr ⟨e, m, ?_⟩
            rw [← hc]
            simpa using h.symm
          · rename_i user hv
            split at h
            · rename_i msg hthrown
              obtain ⟨e, m, hc⟩ := catchBranch_shape msg
              refine .inr ⟨e, m, ?_⟩
              rw [← hc]
              simpa using h.symm
            · rename_i user hv resp hresp
              refine .inl ⟨⟨req, user⟩, ?_⟩
              rw [hresp]
              simpa using h

/-- Every response the role gate produces is a response of the wrapped
handler, the gate's 403 envelope, or an interceptor `authFail` 401
envelope. -/
theorem requireRole_response_shape (roles : List String) (handler : Handler)
    (st : ModuleState) (now : Int) (req : Request) (out : HttpResponse)
    (h : requireRole roles handler st now req = .response out) :
    (∃ areq, handler areq = .response out) ∨ out = forbiddenResp roles ∨
      ∃ e m, out = authFail e m := by
  unfold requireRole at h
  rcases authMiddleware_response_shape _ st now req out h with ⟨areq, ha⟩ | he
  · by_cases hc : (falsyOptStr areq.user.role ||
        ! roles.contains (areq.user.role.getD "")) = true
    · simp only [hc, if_true] at ha
      exact .inr (.inl (by simpa using ha.symm))
    · simp only [Bool.not_eq_true] at hc
      simp only [hc, Bool.false_eq_true, if_false] at ha
      exact .inl ⟨areq, ha⟩
  · exact .inr (.inr he)

/-- C9 counterexample: the role gate's 403 response carries only
`Content-Type` — the `WWW-Authenticate: Bearer` challenge the claim
requires on every failure path is missing from it. -/
theorem C9_counterexample :
    requireRole ["admin"] okHandler st0 100 reqUserRole =
      .response (forbiddenResp ["admin"]) ∧
    (forbiddenResp ["admin"]).status = 403 ∧
    ("WWW-Authenticate", "Bearer") ∉ (forbiddenResp ["admin"]).headers := by
  exact ⟨by decide, rfl, by decide⟩

/-- C9 amended: every failure the interceptor or role gate produces is one
of the uniform JSON envelopes `\x7b error, message \x7d`; the
authentication failures are 401 and carry `WWW-Authenticate: Bearer`, while
the role gate's 403 carries only `Content-Type` and omits the challenge
header. -/
theorem C9_amended_error_envelope :
    (∀ e m, (authFail e m).status = 401 ∧ (authFail e m).body = .errJson e m ∧
      (authFail e m).headers =
        [("Content-Type", "application/json"), ("WWW-Authenticate", "Bearer")]) ∧
    (∀ roles, (forbiddenResp roles).status = 403 ∧
      (forbiddenResp roles).body = .errJson "Insufficient permissions"
        ("Access denied. Required roles: " ++ String.intercalate ", " roles) ∧
      (forbiddenResp roles).headers = [("Content-Type", "application/json")]) ∧
    (∀ handler st now req out, authMiddleware handler st now req = .response out →
      (∃ areq, handler areq = .response out) ∨ ∃ e m, out = authFail e m) ∧
    (∀ roles handler st now req out,
      requireRole roles handler st now req = .response out →
      (∃ areq, handler areq = .response out) ∨ out = forbiddenResp roles ∨
        ∃ e m, out = authFail e m) :=
  ⟨fun _ _ => ⟨rfl, rfl, rfl⟩, fun _ => ⟨rfl, rfl, rfl⟩,
    fun handler st now req out h =>
      authMiddleware_response_shape handler st now req out h,
    fun roles handler st now req out h =>
      requireRole_response_shape roles handler st now req out h⟩

/-- Witness for C9's amended theorem on concrete failing requests. -/
theorem C9_amended_error_envelope_witness :
    ((∃ areq, okHandler areq = .response respMissingHeader) ∨
      ∃ e m, respMissingHeader = authFail e m) ∧
    ((∃ areq, okHandler areq = .response (forbiddenResp ["admin"])) ∨
      forbiddenResp ["admin"] = forbiddenResp ["admin"] ∨
      ∃ e m, forbiddenResp ["admin"] = authFail e m) :=
  ⟨C9_amended_error_envelope.2.2.1 okHandler st0 0 ⟨none⟩ respMissingHeader rfl,
   C9_amended_error_envelope.2.2.2 ["admin"] okHandler st0 100 reqUserRole
     (forbiddenResp ["admin"]) (by decide)⟩

/-- A hardened-signed token lacking the `email` claim. -/
def tokenNoEmail : Token :=
  jwtSign ⟨some "42", none, some "user", none⟩ st0.validatedSecret secureSignOpts 0

/-- The payload `jwt.verify` resolves for `tokenNoEmail`. -/
def payloadNoEmail : Payload :=
  ⟨some "42", none, some "user", none, some 0, some 900,
    some "your-app-name", some "your-app-users"⟩

/-- The token the login flow mints for user `"7"` with role `"admin"`. -/
def loginTok : Token :=
  jwtSign (loginTokenPayload "7" (some "admin")) st0.secretConst legacySignOpts 0

/-- An `Authorization` header presenting the login-minted token. -/
def loginHdr : HeaderVal :=
  ⟨"Bearer " ++ renderToken loginTok, some loginTok⟩

/-- C10: the hardened verifier requires an `email` claim.  When every other
check passes, a payload lacking (or JavaScript-falsy in) `email` is
rejected with the invalid-payload error; no decodable token lacking `email`
ever verifies; in particular every login-minted token — whose payload is
exactly `\x7b userId, role \x7d` — is rejected, and `authMiddleware`
answers 401 to every bearer request whose token lacks `email`. -/
theorem C10_missing_email_always_rejected :
    (∀ tok (st : ModuleState) now p,
      jwtVerify tok st.validatedSecret secureVerifyOpts now = .ok p →
      falsyOptStr p.email = true → tok.text ≠ "" → ¬ tok.text.length < 10 →
      verifyTokenSecure tok st now =
        .error "Invalid token payload: missing required fields") ∧
    (∀ tok t (st : ModuleState) now p, tok.decoded = some t →
      falsyOptStr t.payload.email = true → verifyTokenSecure tok st now ≠ .ok p) ∧
    (∀ uid role (st : ModuleState) n₁ n₂ p, ∃ t,
      (loginMintToken uid role st n₁).decoded = some t ∧ t.payload.email = none ∧
      verifyTokenSecure (loginMintToken uid role st n₁) st n₂ ≠ .ok p) ∧
    (∀ (handler : Handler) (st : ModuleState) now (h : HeaderVal) t,
      h.bearerDecoded = some t → falsyOptStr t.payload.email = true →
      strStartsWith h.text "Bearer " = true →
      ∃ r, authMiddleware handler st now ⟨some h⟩ = .response r ∧ r.status = 401) := by
  refine ⟨?_, ?_, ?_, ?_⟩
  · intro tok st now p hjv hfals hne hlen
    simp [verifyTokenSecure, hne, hlen, hjv, hfals]
  · intro tok t st now p hdec hfals
    exact verifyTokenSecure_missing_email tok t st now p hdec hfals
  · intro uid role st n₁ n₂ p
    refine ⟨jwtSign ⟨some uid, none, role, none⟩ st.secretConst legacySignOpts n₁,
      rfl, rfl, ?_⟩
    exact verifyTokenSecure_missing_email _
      (jwtSign ⟨some uid, none, role, none⟩ st.secretConst legacySignOpts n₁)
      st n₂ p rfl rfl
  · intro handler st now h t hdec hfals hsw
    have hne := strStartsWith_bearer_ne_empty h.text hsw
    by_cases hshort : (h.text.drop 7 = "" ∨ (h.text.drop 7).length < 10)
    · exact ⟨respShortToken, by simp [authMiddleware, hne, hsw, hshort], rfl⟩
    · cases hv : verifyTokenSecure ⟨h.text.drop 7, h.bearerDecoded⟩ st now with
      | error msg =>
        exact ⟨catchBranch msg, by simp [authMiddleware, hne, hsw, hshort, hv],
          catchBranch_status msg⟩
      | ok p =>
        exact absurd hv
          (verifyTokenSecure_missing_email ⟨h.text.drop 7, h.bearerDecoded⟩ t st now p
            hdec hfals)

/-- Witness for C10 at concrete tokens: an otherwise-valid hardened token
without `email`, and the login-minted token presented to the middleware. -/
theorem C10_missing_email_always_rejected_witness :
    verifyTokenSecure (encodeToken tokenNoEmail) st0 100 =
      .error "Invalid token payload: missing required fields" ∧
    (∃ t, (loginMintToken "7" (some "admin") st0 0).decoded = some t ∧
      t.payload.email = none ∧
      verifyTokenSecure (loginMintToken "7" (some "admin") st0 0) st0 100 ≠
        .ok userRolePayload) ∧
    (∃ r, authMiddleware okHandler st0 100 ⟨some loginHdr⟩ = .response r ∧
      r.status = 401) :=
  ⟨C10_missing_email_always_rejected.1 (encodeToken tokenNoEmail) st0 100
      payloadNoEmail (by decide) (by decide) (by decide) (by decide),
   C10_missing_email_always_rejected.2.2.1 "7" (some "admin") st0 0 100 userRolePayload,
   C10_missing_email_always_rejected.2.2.2 okHandler st0 100 loginHdr loginTok
     rfl (by decide) (by decide)⟩

end JwtAuth
